import Mathlib

/-!
Verification development for the Shopify-Insights-Fetcher scraping service.

The definitions below are a shallow embedding of `app/services/scraper.py`
(class `ShopifyScraper`) and of the pydantic models in
`app/models/insights.py`.  Pages are modelled as the collection of views the
extractors take of a fetched body (raw markup for substring checks, the list
of anchor elements, the located main-content text, the parsed JSON product
feed, ...); the network is a function from URL to outcome; the aiohttp
session and the list of issued requests are threaded explicitly as state.
Python regular expressions that the code applies to markup are translated
into executable character-list scanners with the same search semantics
(`re.search` / `re.findall` / `re.match`), with `\w` modelled as ASCII
word characters.
-/

/-- ASCII word character, the model of regex `\w`. -/
def isWordChar (c : Char) : Bool := c.isAlphanum || c = '_'

/-- `pat` is a prefix-match at some position of `cs`. -/
def infixOfAux (pat : List Char) : List Char → Bool
  | [] => pat.isEmpty
  | c :: t => pat.isPrefixOf (c :: t) || infixOfAux pat t

/-- `pat` occurs somewhere in `s`: the model of `re.search` on a literal
pattern (and of Python's `in` operator on strings). -/
def substrOf (pat s : String) : Bool := infixOfAux pat.toList s.toList

/-- Match a sequence of literal segments separated by `.?` (one optional
arbitrary character), anchored at the start of `cs`.  Models regex pieces
such as `order.?tracking`. -/
def segsAt : List String → List Char → Bool
  | [], _ => true
  | [s], cs => s.toList.isPrefixOf cs
  | s :: s2 :: rest, cs =>
    s.toList.isPrefixOf cs &&
      (let cs' := cs.drop s.length
       segsAt (s2 :: rest) cs' ||
         (match cs' with
          | [] => false
          | _ :: t => segsAt (s2 :: rest) t))

/-- Unanchored search for `segsAt`: models `re.search` on a pattern of
literal segments joined by `.?`. -/
def segsSearchAux (segs : List String) : List Char → Bool
  | [] => segsAt segs []
  | c :: t => segsAt segs (c :: t) || segsSearchAux segs t

def segsSearch (segs : List String) (s : String) : Bool :=
  segsSearchAux segs s.toList

/-- If `m` is a prefix of `cs`, the (nonempty) run of class characters that
follows it; `none` otherwise.  Building block for the social-username
extraction regexes `marker([class]+)`. -/
def runAfter (m : List Char) (cls : Char → Bool) (cs : List Char) : Option (List Char) :=
  if m.isPrefixOf cs then
    let run := (cs.drop m.length).takeWhile cls
    if run.isEmpty then none else some run
  else none

/-- Leftmost occurrence of `marker` followed by a nonempty class run:
models `re.search(r'marker([class]+)', s)` returning the group. -/
def findMarkerRun (marker : List Char) (cls : Char → Bool) : List Char → Option (List Char)
  | [] => none
  | c :: cs =>
    match runAfter marker cls (c :: cs) with
    | some r => some r
    | none => findMarkerRun marker cls cs

/-- Like `findMarkerRun` with two alternative markers tried in order at each
position: models `re.search(r'(m1|m2)([class]+)', s)`. -/
def findMarkerRun2 (m1 m2 : List Char) (cls : Char → Bool) : List Char → Option (List Char)
  | [] => none
  | c :: cs =>
    match runAfter m1 cls (c :: cs) with
    | some r => some r
    | none =>
      match runAfter m2 cls (c :: cs) with
      | some r => some r
      | none => findMarkerRun2 m1 m2 cls cs

/-- First-inserted-wins deduplication; the model of accumulating Python
`set` insertions and listing the result. -/
def dedup (l : List String) : List String :=
  l.foldl (fun acc x => if x ∈ acc then acc else acc ++ [x]) []


/-- `\\s`-style whitespace: ASCII whitespace including vertical tab and
form feed (the characters Python `str.strip()` removes). -/
def isSpaceChar (c : Char) : Bool :=
  c.isWhitespace || c = Char.ofNat 11 || c = Char.ofNat 12

/-- Python `str.lower()` (ASCII model). -/
def myToLower (s : String) : String := String.mk (s.toList.map Char.toLower)

/-- Python `str.strip()`. -/
def myTrim (s : String) : String :=
  String.mk (((s.toList.dropWhile isSpaceChar).reverse.dropWhile isSpaceChar).reverse)

/-- `s` starts with `pat`. -/
def myStartsWith (pat s : String) : Bool := pat.toList.isPrefixOf s.toList

/-- Python `str.split(sep)` for a nonempty separator: emit the chunk before
each leftmost non-overlapping occurrence.  The fuel bounds the steps; every
step consumes at least one character, so fuel equal to the initial length
never runs out. -/
def splitOnCharsAux (sep : List Char) : Nat → List Char → List Char → List (List Char)
  | _, [], acc => [acc.reverse]
  | 0, cs, acc => [acc.reverse ++ cs]
  | fuel + 1, c :: rest, acc =>
    if sep.isPrefixOf (c :: rest) then
      acc.reverse :: splitOnCharsAux sep fuel ((c :: rest).drop sep.length) []
    else splitOnCharsAux sep fuel rest (c :: acc)

def mySplitOn (sep s : String) : List String :=
  (splitOnCharsAux sep.toList s.toList.length s.toList []).map String.mk

/-- Python `str.replace(pat, rep)` for a nonempty `pat` (fuel as above). -/
def replaceCharsAux (pat rep : List Char) : Nat → List Char → List Char
  | _, [] => []
  | 0, cs => cs
  | fuel + 1, c :: rest =>
    if pat.isPrefixOf (c :: rest) then
      rep ++ replaceCharsAux pat rep fuel ((c :: rest).drop pat.length)
    else c :: replaceCharsAux pat rep fuel rest

def myReplace (s pat rep : String) : String :=
  String.mk (replaceCharsAux pat.toList rep.toList s.toList.length s.toList)

def myIntercalate (sep : String) : List String → String
  | [] => ""
  | [x] => x
  | x :: y :: rest => x ++ sep ++ myIntercalate sep (y :: rest)

/-! ### Phone-number regex `\+?[\d\s\(\)\-]{10,20}` (`re.findall`) -/

/-- Character class `[\d\s\(\)\-]` of the phone regex (`\s` as ASCII
whitespace). -/
def isPhoneClass (c : Char) : Bool :=
  c.isDigit || c = ' ' || c = '\t' || c = '\n' || c = '\r' ||
    c = Char.ofNat 11 || c = Char.ofNat 12 || c = '(' || c = ')' || c = '-'

/-- Length of the phone-regex match anchored at the head of `cs`, if any:
optional `+`, then greedily 10 to 20 class characters. -/
def phoneMatchLen (cs : List Char) : Option Nat :=
  match cs with
  | '+' :: rest =>
    let n := min (rest.takeWhile isPhoneClass).length 20
    if 10 ≤ n then some (n + 1) else none
  | _ =>
    let n := min (cs.takeWhile isPhoneClass).length 20
    if 10 ≤ n then some n else none

/-- `re.findall` scan for the phone regex.  The fuel argument bounds the
number of steps; every step consumes at least one character, so fuel equal
to the initial length never runs out. -/
def phoneScanAux : Nat → List Char → List String
  | 0, _ => []
  | _, [] => []
  | fuel + 1, c :: rest =>
    match phoneMatchLen (c :: rest) with
    | some n => String.mk ((c :: rest).take n) :: phoneScanAux fuel ((c :: rest).drop n)
    | none => phoneScanAux fuel rest

def phoneScan (s : String) : List String := phoneScanAux s.toList.length s.toList

/-- `re.sub(r'[\s\(\)\-]+', '', phone)`: strip whitespace, parentheses and
hyphens (a leading `+` survives). -/
def cleanPhone (s : String) : String :=
  String.mk (s.toList.filter (fun c => !(isSpaceChar c || c = '(' || c = ')' || c = '-')))

/-- The phone candidates from visible text that pass the length check, each
stripped; models the accepted text-derived entries of the phones set. -/
def textAcceptedPhones (text : String) : List String :=
  (phoneScan text).filterMap (fun cand =>
    if 10 ≤ (cleanPhone cand).length then some (myTrim cand) else none)

/-! ### E-mail regex `[\w\.-]+@[\w\.-]+\.[a-zA-Z]{2,}` (`re.findall`, `re.match`) -/

/-- Character class `[\w\.-]` of the e-mail regex. -/
def isEmailClass (c : Char) : Bool := isWordChar c || c = '.' || c = '-'

/-- Backtracking for the domain part: the largest `k ≥ 1` such that `B[k]`
is `.` and at least two ASCII letters follow; returns `(k, m)` with `m` the
greedy letter-run length. -/
def emailSuffixFrom (B : List Char) : Nat → Option (Nat × Nat)
  | 0 => none
  | k + 1 =>
    let kk := k + 1
    if B.getD kk ' ' = '.' then
      let m := ((B.drop (kk + 1)).takeWhile Char.isAlpha).length
      if 2 ≤ m then some (kk, m) else emailSuffixFrom B k
    else emailSuffixFrom B k

/-- Length of the e-mail-regex match anchored at the head of `cs`, if any.
The local part `[\w\.-]+` can only match its maximal run (an `@` is not a
class character), then the domain part backtracks from the longest split. -/
def emailMatchLen (cs : List Char) : Option Nat :=
  let A := cs.takeWhile isEmailClass
  if A.length = 0 then none
  else
    match cs.drop A.length with
    | '@' :: rest =>
      let B := rest.takeWhile isEmailClass
      match emailSuffixFrom B (B.length - 1) with
      | some (k, m) => some (A.length + 1 + k + 1 + m)
      | none => none
    | _ => none

/-- `re.findall` scan for the e-mail regex (fuel as in `phoneScanAux`). -/
def emailScanAux : Nat → List Char → List String
  | 0, _ => []
  | _, [] => []
  | fuel + 1, c :: rest =>
    match emailMatchLen (c :: rest) with
    | some n => String.mk ((c :: rest).take n) :: emailScanAux fuel ((c :: rest).drop n)
    | none => emailScanAux fuel rest

def emailScan (s : String) : List String := emailScanAux s.toList.length s.toList

/-- `re.match(email_pattern, s)`: a match anchored at the start. -/
def emailMatchesAtStart (s : String) : Bool := (emailMatchLen s.toList).isSome

/-! ### URLs -/

/-- The normalized base URL `scheme://netloc/path` produced by
`_normalize_url` (scheme present, no trailing slash). -/
structure BaseUrl where
  scheme : String
  host : String
  path : String
  deriving DecidableEq, Repr

def BaseUrl.toUrl (b : BaseUrl) : String := b.scheme ++ "://" ++ b.host ++ b.path

/-- `urljoin(base_url, rel)` for the root-relative candidate paths the
scraper builds. -/
def BaseUrl.join (b : BaseUrl) (rel : String) : String :=
  b.scheme ++ "://" ++ b.host ++ rel

/-- `urljoin(base_url, href)` for an arbitrary anchor href (absolute URLs
pass through, scheme-relative take the base scheme, root-relative replace
the path, and other relatives resolve against the base path's directory). -/
def dirOfPath (p : String) : String :=
  match (mySplitOn "/" p).dropLast with
  | [] => "/"
  | segs => myIntercalate "/" segs ++ "/"

def urljoin (b : BaseUrl) (rel : String) : String :=
  if rel = "" then b.toUrl
  else if substrOf "://" rel then rel
  else if myStartsWith "//" rel then b.scheme ++ ":" ++ rel
  else if myStartsWith "/" rel then b.scheme ++ "://" ++ b.host ++ rel
  else b.scheme ++ "://" ++ b.host ++ dirOfPath b.path ++ rel

/-! ### Data model (`app/models/insights.py`) -/

structure FAQ where
  question : String
  answer : String
  deriving DecidableEq, Repr

structure Socials where
  instagram : Option String := none
  facebook : Option String := none
  tiktok : Option String := none
  twitter : Option String := none
  youtube : Option String := none
  linkedin : Option String := none
  pinterest : Option String := none
  deriving DecidableEq, Repr

structure Contact where
  emails : List String := []
  phones : List String := []
  deriving DecidableEq, Repr

structure Policies where
  privacy : Option String := none
  return_policy : Option String := none
  refund : Option String := none
  terms : Option String := none
  deriving DecidableEq, Repr

structure Links where
  order_tracking : Option String := none
  contact_us : Option String := none
  blogs : Option String := none
  shipping : Option String := none
  careers : Option String := none
  deriving DecidableEq, Repr

/-- A raw variant record; only its `price` key is ever read. -/
structure VariantData where
  price : Option String := none
  deriving DecidableEq, Repr

structure Product where
  id : Option String := none
  title : String
  handle : Option String := none
  description : Option String := none
  price : Option String := none
  image : Option String := none
  url : Option String := none
  tags : List String := []
  variants : Option (List VariantData) := none
  deriving DecidableEq, Repr

structure BrandContext where
  brand : String
  products : List Product := []
  hero_products : List Product := []
  policies : Policies := {}
  faqs : List FAQ := []
  socials : Socials := {}
  contact : Contact := {}
  about : Option String := none
  links : Links := {}
  deriving DecidableEq, Repr

/-! ### Fetched pages as the views the extractors take of them -/

/-- An `<a>` element that carries an `href` attribute, with its visible
text. -/
structure Anchor where
  href : String
  text : String := ""
  deriving DecidableEq, Repr

/-- An accordion-style candidate item (a `details`/`div` with an
accordion-like class): the stripped text of its question sub-element and of
its answer sub-element, when those are found. -/
structure AccordionItem where
  question : Option String := none
  answer : Option String := none
  deriving DecidableEq, Repr

/-- A heading-like question node (`h3`/`h4`/`strong` with a question-like
class): its stripped text and the stripped text of its `find_next` block. -/
structure HeadingPair where
  question : String
  answer : Option String := none
  deriving DecidableEq, Repr

/-- The value of the field `images[i]`; only `src` is read. -/
structure ImageData where
  src : Option String := none
  deriving DecidableEq, Repr

/-- The JSON value found under the `tags` key of a product record.
`other` stands for a value that is neither a list nor a string, on which
`.split(', ')` raises. -/
inductive TagsValue where
  | list (ts : List String)
  | str (s : String)
  | other
  deriving DecidableEq, Repr

/-- One record of the `products` collection of a feed document; absent keys
are `none`. -/
structure ProductData where
  id : Option String := none
  title : Option String := none
  handle : Option String := none
  body_html : Option String := none
  variants : List VariantData := []
  images : List ImageData := []
  tags : Option TagsValue := none
  deriving DecidableEq, Repr

/-- The parse of a fetched body as a JSON product feed: `invalid` when
`json.loads` (or iterating a malformed collection) raises, `noProducts`
when the document parses but has no `products` key. -/
inductive JsonDoc where
  | invalid
  | noProducts
  | withProducts (ps : List ProductData)
  deriving DecidableEq, Repr

/-- A fetched body together with every view the extractors take of it. -/
structure Page where
  /-- the raw markup, for `in`-style substring indicator checks -/
  raw : String := ""
  /-- hrefs of `<link>` elements, for the CDN-pattern indicator -/
  linkHrefs : List String := []
  /-- srcs of `<script>` elements, for the CDN-pattern indicator -/
  scriptSrcs : List String := []
  /-- all `<a>` elements carrying an `href`, in document order -/
  anchors : List Anchor := []
  /-- `soup.get_text()`: the visible text of the whole document -/
  text : String := ""
  /-- text of `soup.find('main')`, when that element exists -/
  mainText : Option String := none
  /-- text of the first `div` with a content/main/page-like class -/
  divContentText : Option String := none
  /-- accordion-style FAQ candidate items, in document order -/
  accordionItems : List AccordionItem := []
  /-- heading-like question nodes with their next blocks, in order -/
  headingPairs : List HeadingPair := []
  /-- the body parsed as a JSON product feed -/
  json : JsonDoc := .invalid
  deriving DecidableEq, Repr

/-- Outcome of one HTTP GET: `err` when the transport raises
(`aiohttp.ClientError`), otherwise the final body and status. -/
inductive FetchOutcome where
  | err
  | ok (page : Page) (status : Nat)
  deriving DecidableEq, Repr

/-- The network, fixed for one run. -/
def World : Type := String → FetchOutcome

/-- The typed failures `get_brand_context` can raise:
`WebsiteNotFoundException` and `InvalidShopifyStoreError`. -/
inductive ScrapeErr where
  | websiteNotFound
  | invalidStore
  deriving DecidableEq, Repr

deriving instance DecidableEq for Except

/-- The mutable per-run state of `ShopifyScraper`: the requests issued so
far, the cached homepage soup, and the aiohttp session (whether one is
open, and how many times one has been closed). -/
structure ScraperState where
  fetched : List String := []
  soup : Option Page := none
  sessionOpen : Bool := false
  closeCount : Nat := 0
  deriving DecidableEq, Repr

def initState : ScraperState := {}

/-- `_fetch_url`: initialize the session if needed, issue the GET, return
body and status or raise `WebsiteNotFoundException` on a transport error. -/
def fetchUrl (w : World) (url : String) (st : ScraperState) :
    Except ScrapeErr (Page × Nat) × ScraperState :=
  ((match w url with
    | .err => .error .websiteNotFound
    | .ok pg s => .ok (pg, s)),
   { st with sessionOpen := true, fetched := st.fetched ++ [url] })

/-- `_close_session`: close the session if one is open. -/
def closeSession (st : ScraperState) : ScraperState :=
  if st.sessionOpen then
    { st with sessionOpen := false, closeCount := st.closeCount + 1 }
  else st

/-! ### Platform detection (`_check_is_shopify`) -/

/-- The disjunction of the five Shopify indicators evaluated on the fetched
homepage. -/
def isShopifyPage (p : Page) : Bool :=
  substrOf "Shopify.theme" p.raw ||
  substrOf "cdn.shopify.com" p.raw ||
  substrOf "myshopify.com" p.raw ||
  p.linkHrefs.any (fun h => substrOf "cdn.shopify.com" h) ||
  p.scriptSrcs.any (fun s => substrOf "cdn.shopify.com" s)

/-- `_check_is_shopify`: fetch the homepage, raise on a non-200 status,
cache the parsed soup, and report whether any indicator matched. -/
def checkIsShopify (w : World) (b : BaseUrl) (st : ScraperState) :
    Except ScrapeErr Bool × ScraperState :=
  match fetchUrl w b.toUrl st with
  | (.error e, st') => (.error e, st')
  | (.ok (pg, status), st') =>
    if status ≠ 200 then (.error .websiteNotFound, st')
    else (.ok (isShopifyPage pg), { st' with soup := some pg })

/-! ### Catalog extraction (`_fetch_products`) -/

def productEndpoints : List String :=
  ["/products.json?limit=250", "/collections/all/products.json?limit=250"]

/-- `_get_product_price`: the first variant's `price`, or absent. -/
def getProductPrice (pd : ProductData) : Option String :=
  match pd.variants with
  | [] => none
  | v :: _ => v.price

/-- `_get_product_image`: the first image's `src`, or absent. -/
def getProductImage (pd : ProductData) : Option String :=
  match pd.images with
  | [] => none
  | img :: _ => img.src

/-- The `tags=` argument of the `Product(...)` construction: a list passes
through, a string is split on `', '`, a missing key yields `''.split(', ')`
(that is, `[""]`), and any other value makes `.split` raise (`none`). -/
def tagsResult : Option TagsValue → Option (List String)
  | some (.list ts) => some ts
  | some (.str s) => some (mySplitOn ", " s)
  | some .other => none
  | none => some (mySplitOn ", " "")

/-- Construction of one `Product` from a feed record (the body of the
`for product_data in data['products']` loop); `none` models an exception
raised during the construction. -/
def toProduct (b : BaseUrl) (pd : ProductData) : Option Product :=
  (tagsResult pd.tags).map (fun tags =>
    { id := some (pd.id.getD "None")
      title := pd.title.getD ""
      handle := some (pd.handle.getD "")
      description := some (pd.body_html.getD "")
      price := getProductPrice pd
      image := getProductImage pd
      url := some (urljoin b ("/products/" ++ pd.handle.getD "None"))
      tags := tags
      variants := some pd.variants })

/-- Convert the records of one feed in order, stopping at the first record
whose construction raises; the Bool reports whether the whole collection
converted without an exception. -/
def convertAll (b : BaseUrl) : List ProductData → List Product × Bool
  | [] => ([], true)
  | pd :: rest =>
    match toProduct b pd with
    | none => ([], false)
    | some p =>
      let (ps, ok) := convertAll b rest
      (p :: ps, ok)

/-- The endpoint loop of `_fetch_products`: every fetch is wrapped in
`try/except Exception: continue`; records convert into the shared
`products` list; the `break` fires only when the 200 document has a
`products` key and the conversion finished without raising. -/
def fetchProductsLoop (w : World) (b : BaseUrl) :
    List String → List Product → ScraperState → List Product × ScraperState
  | [], acc, st => (acc, st)
  | ep :: rest, acc, st =>
    match fetchUrl w (b.join ep) st with
    | (.error _, st') => fetchProductsLoop w b rest acc st'
    | (.ok (pg, status), st') =>
      if status = 200 then
        match pg.json with
        | .invalid => fetchProductsLoop w b rest acc st'
        | .noProducts => fetchProductsLoop w b rest acc st'
        | .withProducts ps =>
          match convertAll b ps with
          | (newPs, true) => (acc ++ newPs, st')
          | (newPs, false) => fetchProductsLoop w b rest (acc ++ newPs) st'
      else fetchProductsLoop w b rest acc st'

def fetchProducts (w : World) (b : BaseUrl) (st : ScraperState) :
    List Product × ScraperState :=
  fetchProductsLoop w b productEndpoints [] st

/-! ### Hero products (`_fetch_hero_products`) -/

/-- `href.split('/')[-1].split('?')[0]`. -/
def handleOfHref (href : String) : String :=
  (mySplitOn "?" ((mySplitOn "/" href).getLastD "")).headD ""

/-- The loop over homepage product links: deduplicate handles in encounter
order and keep the first catalog product with each handle. -/
def heroLoop (allProducts : List Product) :
    List Anchor → List String → List Product → List Product
  | [], _, acc => acc
  | a :: rest, seen, acc =>
    let handle := handleOfHref a.href
    if handle ≠ "" && !(seen.contains handle) then
      match allProducts.find? (fun p => p.handle == some handle) with
      | some p => heroLoop allProducts rest (handle :: seen) (acc ++ [p])
      | none => heroLoop allProducts rest (handle :: seen) acc
    else heroLoop allProducts rest seen acc

/-- `_fetch_hero_products` applied to an already-parsed homepage soup:
scan anchors whose href matches `/products/`, match handles back to the
catalog, cap at 10. -/
def heroFromSoup (page : Page) (allProducts : List Product) : List Product :=
  (heroLoop allProducts
    (page.anchors.filter (fun a => substrOf "/products/" a.href)) [] []).take 10

/-- Re-fetch and cache the homepage soup when `self.soup` is unset (the
shared preamble of the hero/socials/contact/links extractors); the fetch is
not wrapped in a `try`, so a transport error propagates. -/
def ensureSoup (w : World) (b : BaseUrl) (st : ScraperState) :
    Except ScrapeErr Page × ScraperState :=
  match st.soup with
  | some pg => (.ok pg, st)
  | none =>
    match fetchUrl w b.toUrl st with
    | (.error e, st') => (.error e, st')
    | (.ok (pg, _), st') => (.ok pg, { st' with soup := some pg })

def fetchHeroProducts (w : World) (b : BaseUrl) (allProducts : List Product)
    (st : ScraperState) : Except ScrapeErr (List Product) × ScraperState :=
  match ensureSoup w b st with
  | (.error e, st') => (.error e, st')
  | (.ok pg, st') => (.ok (heroFromSoup pg allProducts), st')

/-! ### Policy / about text pages (`_fetch_policies`, `_fetch_about`) -/

/-- `soup.find('main')`, else the first `div` whose class matches
`(content|main|page).*`; the located element's text. -/
def mainContentText (pg : Page) : Option String :=
  match pg.mainText with
  | some t => some t
  | none => pg.divContentText

/-- The per-field candidate-path loop shared by `_fetch_policies` (inner
loop) and `_fetch_about`: fetch each path in order inside
`try/except: continue`; on a 200 response locate the main content; the
`break` fires only when content was located. -/
def fetchPolicyText (w : World) (b : BaseUrl) :
    List String → ScraperState → Option String × ScraperState
  | [], st => (none, st)
  | path :: rest, st =>
    match fetchUrl w (b.join path) st with
    | (.error _, st') => fetchPolicyText w b rest st'
    | (.ok (pg, status), st') =>
      if status = 200 then
        match mainContentText pg with
        | some t => (some t, st')
        | none => fetchPolicyText w b rest st'
      else fetchPolicyText w b rest st'

def privacyPaths : List String :=
  ["/policies/privacy-policy", "/pages/privacy-policy", "/pages/privacy"]
def returnPolicyPaths : List String :=
  ["/policies/refund-policy", "/pages/refund-policy", "/pages/returns", "/pages/return-policy"]
def refundPaths : List String :=
  ["/policies/refund-policy", "/pages/refund-policy", "/pages/refunds"]
def termsPaths : List String :=
  ["/policies/terms-of-service", "/pages/terms-of-service", "/pages/terms", "/pages/terms-conditions"]

/-- `_fetch_policies`: one candidate-path loop per policy type, in the
insertion order of `policy_paths`. -/
def fetchPolicies (w : World) (b : BaseUrl) (st : ScraperState) :
    Policies × ScraperState :=
  let (privacy, st1) := fetchPolicyText w b privacyPaths st
  let (returnPol, st2) := fetchPolicyText w b returnPolicyPaths st1
  let (refund, st3) := fetchPolicyText w b refundPaths st2
  let (terms, st4) := fetchPolicyText w b termsPaths st3
  ({ privacy := privacy, return_policy := returnPol, refund := refund, terms := terms }, st4)

def aboutPaths : List String :=
  ["/about", "/pages/about", "/pages/about-us", "/pages/our-story", "/pages/story"]

/-- `_fetch_about` repeats the policy-page loop over the about candidate
paths (same fetch / 200 / main-content / break structure). -/
def fetchAbout (w : World) (b : BaseUrl) (st : ScraperState) :
    Option String × ScraperState :=
  fetchPolicyText w b aboutPaths st

/-! ### FAQs (`_fetch_faqs`) -/

/-- Method 1 loop body: for each accordion item with both a question and an
answer sub-element whose stripped texts are nonempty, append a pair. -/
def accordionStep (acc : List FAQ) (it : AccordionItem) : List FAQ :=
  match it.question, it.answer with
  | some q, some a => if q ≠ "" && a ≠ "" then acc ++ [⟨q, a⟩] else acc
  | _, _ => acc

/-- Method 2 loop body: pair each heading-like question with its
`find_next` block when both texts are nonempty. -/
def headingStep (acc : List FAQ) (hp : HeadingPair) : List FAQ :=
  match hp.answer with
  | some a => if hp.question ≠ "" && a ≠ "" then acc ++ [⟨hp.question, a⟩] else acc
  | none => acc

/-- The per-page body of `_fetch_faqs`: run method 1 over the accordion
items, then run method 2 only when the list is still empty. -/
def faqsAfterPage (page : Page) (faqs : List FAQ) : List FAQ :=
  let faqs1 := page.accordionItems.foldl accordionStep faqs
  if faqs1.isEmpty then page.headingPairs.foldl headingStep faqs1 else faqs1

def faqPaths : List String :=
  ["/faq", "/pages/faq", "/pages/faqs", "/pages/frequently-asked-questions"]

/-- The candidate-path loop of `_fetch_faqs`: each fetch inside
`try/except: continue`; on 200 run the two strategies; break once the list
is nonempty. -/
def fetchFaqsLoop (w : World) (b : BaseUrl) :
    List String → List FAQ → ScraperState → List FAQ × ScraperState
  | [], faqs, st => (faqs, st)
  | path :: rest, faqs, st =>
    match fetchUrl w (b.join path) st with
    | (.error _, st') => fetchFaqsLoop w b rest faqs st'
    | (.ok (pg, status), st') =>
      if status = 200 then
        let faqs' := faqsAfterPage pg faqs
        if faqs'.isEmpty then fetchFaqsLoop w b rest faqs' st'
        else (faqs', st')
      else fetchFaqsLoop w b rest faqs st'

def fetchFaqs (w : World) (b : BaseUrl) (st : ScraperState) :
    List FAQ × ScraperState :=
  fetchFaqsLoop w b faqPaths [] st

/-! ### Social handles (`_fetch_social_handles`, `_extract_social_username`) -/

def isInstaChar (c : Char) : Bool := isWordChar c || c = '.' || c = '_'
def isFbChar (c : Char) : Bool := isWordChar c || c = '.'
def isTiktokChar (c : Char) : Bool := isWordChar c || c = '.'
def isLinkedinChar (c : Char) : Bool := isWordChar c || c = '-'

/-- `re.search(r'instagram\.com/([\w\._]+)', url)` with an `@` prefix. -/
def extractInstagram (url : String) : Option String :=
  (findMarkerRun "instagram.com/".toList isInstaChar url.toList).map
    (fun r => "@" ++ String.mk r)

/-- `re.search(r'facebook\.com/([\w\.]+)', url)` with an `@` prefix. -/
def extractFacebook (url : String) : Option String :=
  (findMarkerRun "facebook.com/".toList isFbChar url.toList).map
    (fun r => "@" ++ String.mk r)

/-- After `tiktok.com/` the regex `@?([\w\.]+)` optionally skips one `@`
and then needs a nonempty class run. -/
def runAfterTiktok (cs : List Char) : Option (List Char) :=
  if "tiktok.com/".toList.isPrefixOf cs then
    let rest := cs.drop "tiktok.com/".length
    let rest' := match rest with
      | '@' :: t => t
      | _ => rest
    let run := rest'.takeWhile isTiktokChar
    if run.isEmpty then none else some run
  else none

def findTiktokRun : List Char → Option (List Char)
  | [] => none
  | c :: cs =>
    match runAfterTiktok (c :: cs) with
    | some r => some r
    | none => findTiktokRun cs

/-- `re.search(r'tiktok\.com/@?([\w\.]+)', url)` with an `@` prefix. -/
def extractTiktok (url : String) : Option String :=
  (findTiktokRun url.toList).map (fun r => "@" ++ String.mk r)

/-- `re.search(r'(twitter|x)\.com/([\w]+)', url)`: group 2 with an `@`
prefix. -/
def extractTwitter (url : String) : Option String :=
  (findMarkerRun2 "twitter.com/".toList "x.com/".toList isWordChar url.toList).map
    (fun r => "@" ++ String.mk r)

/-- `re.search(r'youtube\.com/(user|channel)/([\w]+)', url)`: group 2,
without an `@` prefix. -/
def extractYoutube (url : String) : Option String :=
  (findMarkerRun2 "youtube.com/user/".toList "youtube.com/channel/".toList
      isWordChar url.toList).map String.mk

/-- `re.search(r'linkedin\.com/(company|in)/([\w\-]+)', url)`: the code
falls through to the generic branch and returns `'@' + match.group(1)`,
that is, the literal `@company` or `@in`. -/
def extractLinkedinAux : List Char → Option String
  | [] => none
  | c :: cs =>
    match runAfter "linkedin.com/company/".toList isLinkedinChar (c :: cs) with
    | some _ => some "@company"
    | none =>
      match runAfter "linkedin.com/in/".toList isLinkedinChar (c :: cs) with
      | some _ => some "@in"
      | none => extractLinkedinAux cs

def extractLinkedin (url : String) : Option String := extractLinkedinAux url.toList

/-- `re.search(r'pinterest\.com/([\w]+)', url)` with an `@` prefix. -/
def extractPinterest (url : String) : Option String :=
  (findMarkerRun "pinterest.com/".toList isWordChar url.toList).map
    (fun r => "@" ++ String.mk r)

/-- `re.search` of each platform pattern against the lowercased href. -/
def matchInstagram (h : String) : Bool := substrOf "instagram.com" h || substrOf "instagram" h
def matchFacebook (h : String) : Bool := substrOf "facebook.com" h || substrOf "facebook" h
def matchTiktok (h : String) : Bool := substrOf "tiktok.com" h || substrOf "tiktok" h
def matchTwitter (h : String) : Bool := substrOf "twitter.com" h || substrOf "x.com" h
def matchYoutube (h : String) : Bool := substrOf "youtube.com" h || substrOf "youtube" h
def matchLinkedin (h : String) : Bool := substrOf "linkedin.com" h || substrOf "linkedin" h
def matchPinterest (h : String) : Bool := substrOf "pinterest.com" h || substrOf "pinterest" h

/-- `username or href`: the extracted handle, else the (lowercased) raw
href. -/
def deriveInstagram (h : String) : String := (extractInstagram h).getD h
def deriveFacebook (h : String) : String := (extractFacebook h).getD h
def deriveTiktok (h : String) : String := (extractTiktok h).getD h
def deriveTwitter (h : String) : String := (extractTwitter h).getD h
def deriveYoutube (h : String) : String := (extractYoutube h).getD h
def deriveLinkedin (h : String) : String := (extractLinkedin h).getD h
def derivePinterest (h : String) : String := (extractPinterest h).getD h

/-- The body of the anchor loop of `_fetch_social_handles` for one
lowercased href: each matching platform's field is overwritten (the seven
`setattr` calls touch distinct fields, so the sequential updates equal this
simultaneous record update). -/
def applyAnchorSocials (soc : Socials) (h : String) : Socials :=
  { instagram := if matchInstagram h then some (deriveInstagram h) else soc.instagram
    facebook := if matchFacebook h then some (deriveFacebook h) else soc.facebook
    tiktok := if matchTiktok h then some (deriveTiktok h) else soc.tiktok
    twitter := if matchTwitter h then some (deriveTwitter h) else soc.twitter
    youtube := if matchYoutube h then some (deriveYoutube h) else soc.youtube
    linkedin := if matchLinkedin h then some (deriveLinkedin h) else soc.linkedin
    pinterest := if matchPinterest h then some (derivePinterest h) else soc.pinterest }

/-- `_fetch_social_handles` applied to the homepage anchors. -/
def socialsFromAnchors (anchors : List Anchor) : Socials :=
  anchors.foldl (fun (soc : Socials) (a : Anchor) => applyAnchorSocials soc (myToLower a.href)) {}

def fetchSocialHandles (w : World) (b : BaseUrl) (st : ScraperState) :
    Except ScrapeErr Socials × ScraperState :=
  match ensureSoup w b st with
  | (.error e, st') => (.error e, st')
  | (.ok pg, st') => (.ok (socialsFromAnchors pg.anchors), st')

/-! ### Contact info (`_fetch_contact_info`) -/

def contactPaths : List String := ["/contact", "/pages/contact", "/pages/contact-us"]

/-- The contact-page candidate loop: first 200 response wins; fetches are
inside `try/except: continue`. -/
def fetchContactLoop (w : World) (b : BaseUrl) :
    List String → ScraperState → Option Page × ScraperState
  | [], st => (none, st)
  | path :: rest, st =>
    match fetchUrl w (b.join path) st with
    | (.error _, st') => fetchContactLoop w b rest st'
    | (.ok (pg, status), st') =>
      if status = 200 then (some pg, st')
      else fetchContactLoop w b rest st'

/-- E-mails and phones of one soup: regex hits over the visible text,
unioned with `mailto:`/`tel:` link targets (Python sets modelled as
first-insertion-ordered deduplicated lists). -/
def contactFromSoup (page : Page) : Contact :=
  let textEmails := emailScan page.text
  let mailtoEmails :=
    (page.anchors.filter (fun a => substrOf "mailto:" a.href)).filterMap (fun a =>
      let e := myTrim ((mySplitOn "?" (myReplace a.href "mailto:" "")).headD "")
      if emailMatchesAtStart e then some e else none)
  let telPhones :=
    (page.anchors.filter (fun a => substrOf "tel:" a.href)).map
      (fun a => myTrim (myReplace a.href "tel:" ""))
  { emails := dedup (textEmails ++ mailtoEmails)
    phones := dedup (textAcceptedPhones page.text ++ telPhones) }

def fetchContactInfo (w : World) (b : BaseUrl) (st : ScraperState) :
    Except ScrapeErr Contact × ScraperState :=
  match ensureSoup w b st with
  | (.error e, st') => (.error e, st')
  | (.ok pg, st') =>
    match fetchContactLoop w b contactPaths st' with
    | (found, st'') => (.ok (contactFromSoup (found.getD pg)), st'')

/-! ### Important links (`_fetch_important_links`) -/

/-- `re.search(r'(order.?tracking|track.?order|track.?package)', s)`. -/
def linkPatOrderTracking (s : String) : Bool :=
  segsSearch ["order", "tracking"] s || segsSearch ["track", "order"] s ||
    segsSearch ["track", "package"] s

/-- `re.search(r'(contact|contact.?us)', s)`. -/
def linkPatContactUs (s : String) : Bool :=
  substrOf "contact" s || segsSearch ["contact", "us"] s

/-- `re.search(r'(blog|news|articles)', s)`. -/
def linkPatBlogs (s : String) : Bool :=
  substrOf "blog" s || substrOf "news" s || substrOf "articles" s

/-- `re.search(r'(shipping|delivery)', s)`. -/
def linkPatShipping (s : String) : Bool :=
  substrOf "shipping" s || substrOf "delivery" s

/-- `re.search(r'(careers|jobs|join.?us|work.?with.?us)', s)`. -/
def linkPatCareers (s : String) : Bool :=
  substrOf "careers" s || substrOf "jobs" s || segsSearch ["join", "us"] s ||
    segsSearch ["work", "with", "us"] s

/-- A link category matches when its pattern hits the lowercased href or
the lowercased anchor text. -/
def matchOrderTracking (a : Anchor) : Bool :=
  linkPatOrderTracking (myToLower a.href) || linkPatOrderTracking (myToLower a.text)
def matchContactUs (a : Anchor) : Bool :=
  linkPatContactUs (myToLower a.href) || linkPatContactUs (myToLower a.text)
def matchBlogs (a : Anchor) : Bool :=
  linkPatBlogs (myToLower a.href) || linkPatBlogs (myToLower a.text)
def matchShipping (a : Anchor) : Bool :=
  linkPatShipping (myToLower a.href) || linkPatShipping (myToLower a.text)
def matchCareers (a : Anchor) : Bool :=
  linkPatCareers (myToLower a.href) || linkPatCareers (myToLower a.text)

/-- The body of the anchor loop of `_fetch_important_links`: the stored
value is `urljoin(base_url, href)` of the lowercased href; the five
`setattr` calls touch distinct fields. -/
def applyAnchorLinks (b : BaseUrl) (lnk : Links) (a : Anchor) : Links :=
  let full := urljoin b (myToLower a.href)
  { order_tracking := if matchOrderTracking a then some full else lnk.order_tracking
    contact_us := if matchContactUs a then some full else lnk.contact_us
    blogs := if matchBlogs a then some full else lnk.blogs
    shipping := if matchShipping a then some full else lnk.shipping
    careers := if matchCareers a then some full else lnk.careers }

/-- `_fetch_important_links` applied to the homepage anchors. -/
def linksFromAnchors (b : BaseUrl) (anchors : List Anchor) : Links :=
  anchors.foldl (applyAnchorLinks b) {}

def fetchImportantLinks (w : World) (b : BaseUrl) (st : ScraperState) :
    Except ScrapeErr Links × ScraperState :=
  match ensureSoup w b st with
  | (.error e, st') => (.error e, st')
  | (.ok pg, st') => (.ok (linksFromAnchors b pg.anchors), st')

/-! ### Orchestration (`get_brand_context`) -/

/-- `get_brand_context`: detect the platform, raise
`InvalidShopifyStoreError` when no signature matched, otherwise run the
eight extractors in sequence and assemble the document; the
`finally: await self._close_session()` closes the session on every exit
path.  The brand is `urlparse(base_url).netloc`, that is, the host. -/
def getBrandContext (w : World) (b : BaseUrl) :
    Except ScrapeErr BrandContext × ScraperState :=
  match checkIsShopify w b initState with
  | (.error e, st) => (.error e, closeSession st)
  | (.ok isShopify, st) =>
    if !isShopify then (.error .invalidStore, closeSession st)
    else
      match fetchProducts w b st with
      | (products, st) =>
        match fetchHeroProducts w b products st with
        | (.error e, st) => (.error e, closeSession st)
        | (.ok hero, st) =>
          match fetchPolicies w b st with
          | (policies, st) =>
            match fetchFaqs w b st with
            | (faqs, st) =>
              match fetchSocialHandles w b st with
              | (.error e, st) => (.error e, closeSession st)
              | (.ok socials, st) =>
                match fetchContactInfo w b st with
                | (.error e, st) => (.error e, closeSession st)
                | (.ok contact, st) =>
                  match fetchAbout w b st with
                  | (about, st) =>
                    match fetchImportantLinks w b st with
                    | (.error e, st) => (.error e, closeSession st)
                    | (.ok links, st) =>
                      (.ok { brand := b.host, products := products,
                             hero_products := hero, policies := policies,
                             faqs := faqs, socials := socials,
                             contact := contact, about := about,
                             links := links }, closeSession st)

/-! ### Concrete pages, worlds and claim-side definitions used by the
theorems below -/

/-- The per-item contribution of method 1, as an optional pair. -/
def accordionOpt (it : AccordionItem) : Option FAQ :=
  match it.question, it.answer with
  | some q, some a => if q ≠ "" && a ≠ "" then some ⟨q, a⟩ else none
  | _, _ => none

/-- The per-item contribution of method 2, as an optional pair. -/
def headingOpt (hp : HeadingPair) : Option FAQ :=
  match hp.answer with
  | some a => if hp.question ≠ "" && a ≠ "" then some ⟨hp.question, a⟩ else none
  | none => none

/-- The pairs strategy (a) collects from a page. -/
def accordionPairs (page : Page) : List FAQ :=
  page.accordionItems.filterMap accordionOpt

/-- The pairs strategy (b) collects from a page. -/
def headingFaqs (page : Page) : List FAQ :=
  page.headingPairs.filterMap headingOpt

def c2page : Page :=
  { anchors := [⟨"/products/blue-shirt", ""⟩, ⟨"/products/ghost-item", ""⟩,
                ⟨"/pages/about", ""⟩] }

def c2products : List Product :=
  [{ title := "Blue Shirt", handle := some "blue-shirt" },
   { title := "Red Shirt", handle := some "red-shirt" }]

def c7pageBoth : Page :=
  { accordionItems := [{ question := some "Q1", answer := some "A1" }],
    headingPairs := [{ question := "Q2", answer := some "A2" }] }

def c7pageFlat : Page :=
  { accordionItems := [{ question := some "Q1", answer := none }],
    headingPairs := [{ question := "Q2", answer := some "A2" }] }

def c3base : BaseUrl := ⟨"https", "shop.example", ""⟩

def c3world : World := fun u =>
  if u = "https://shop.example/products.json?limit=250" then
    .ok { json := .withProducts [] } 200
  else .ok { json := .withProducts [{ title := some "X" }, { title := some "Y" },
                                    { title := some "Z" }] } 200

def c10base : BaseUrl := ⟨"https", "shop.example", ""⟩

def c10goodA : ProductData :=
  { id := some "1", title := some "A", handle := some "a", tags := some (.list ["x"]) }

/-- A record whose `tags` value is neither a list nor a string: building
its `Product` raises. -/
def c10bad : ProductData := { title := some "B", handle := some "b", tags := some .other }

def c10goodC : ProductData :=
  { id := some "3", title := some "C", handle := some "c", tags := some (.str "t1, t2") }

def c10world : World := fun u =>
  if u = "https://shop.example/products.json?limit=250" then
    .ok { json := .withProducts [c10goodA, c10bad, c10goodC] } 200
  else if u = "https://shop.example/collections/all/products.json?limit=250" then
    .ok { json := .withProducts [c10goodC] } 200
  else .ok {} 404

def c10prodA : Product :=
  { id := some "1", title := "A", handle := some "a", description := some "",
    price := none, image := none, url := some "https://shop.example/products/a",
    tags := ["x"], variants := some [] }

def c10prodC : Product :=
  { id := some "3", title := "C", handle := some "c", description := some "",
    price := none, image := none, url := some "https://shop.example/products/c",
    tags := ["t1", "t2"], variants := some [] }

def c4base : BaseUrl := ⟨"https", "plain.example", ""⟩

def c4page : Page := { raw := "<html><body>hello</body></html>" }

def c4world : World := fun u =>
  if u = "https://plain.example" then .ok c4page 200 else .ok {} 404

/-- The claim's reading of the cleaned candidate: whitespace and
punctuation removed, digits only. -/
def claimCleanedPhone (s : String) : String :=
  String.mk (s.toList.filter Char.isAlphanum)

def c8wbase : BaseUrl := ⟨"https", "pol2.example", ""⟩

def c8wpage : Page := { mainText := some "Privacy text" }

def c8wworld : World := fun u =>
  if u = "https://pol2.example/policies/privacy-policy" then .ok c8wpage 200
  else .ok {} 404

def c8base : BaseUrl := ⟨"https", "pol.example", ""⟩

def c8world : World := fun u =>
  if u = "https://pol.example/policies/privacy-policy" then .ok {} 200
  else .ok {} 404

/-- State facts preserved by every extractor loop: the cached soup and the
close count are untouched, and an open session stays open. -/
def loopInv (st st' : ScraperState) : Prop :=
  st'.soup = st.soup ∧ st'.closeCount = st.closeCount ∧
    (st.sessionOpen = true → st'.sessionOpen = true)

/-- The URL's fetch does not yield a 200 response (transport error or any
other status). -/
def failsAt (w : World) (url : String) : Prop :=
  ∀ pg s, w url = .ok pg s → s ≠ 200

def c1base : BaseUrl := ⟨"https", "brand.example", ""⟩

def c1page : Page := { raw := "<script>Shopify.theme = {};</script>" }

def c1world : World := fun u =>
  if u = "https://brand.example" then .ok c1page 200 else .ok {} 404

def c1xpage : Page :=
  { raw := "cdn.shopify.com",
    anchors := [⟨"https://instagram.com/brand", ""⟩] }

def c1xworld : World := fun u =>
  if u = "https://brand.example" then .ok c1xpage 200 else .ok {} 404

/-! ## Helper lemmas -/

theorem heroLoop_nil_products :
    ∀ (links : List Anchor) (seen : List String) (acc : List Product),
      heroLoop [] links seen acc = acc := by
  intro links
  induction links with
  | nil => intro seen acc; rfl
  | cons a rest ih =>
    intro seen acc
    rw [heroLoop]
    split
    · rw [List.find?_nil, ih]
    · exact ih seen acc

theorem heroLoop_mem (allProducts : List Product) :
    ∀ (links : List Anchor) (seen : List String) (acc : List Product),
      (∀ x ∈ acc, x ∈ allProducts) →
      ∀ x ∈ heroLoop allProducts links seen acc, x ∈ allProducts := by
  intro links
  induction links with
  | nil =>
    intro seen acc hacc x hx
    rw [heroLoop] at hx
    exact hacc x hx
  | cons a rest ih =>
    intro seen acc hacc x hx
    rw [heroLoop] at hx
    split at hx
    · cases hfind : allProducts.find? (fun p => p.handle == some (handleOfHref a.href)) with
      | some p =>
        rw [hfind] at hx
        refine ih _ _ ?_ x hx
        intro y hy
        rcases List.mem_append.1 hy with h | h
        · exact hacc y h
        · rw [List.mem_singleton] at h
          subst h
          exact List.mem_of_find?_eq_some hfind
      | none =>
        rw [hfind] at hx
        exact ih _ _ hacc x hx
    · exact ih _ _ hacc x hx

theorem accordionStep_eq (acc : List FAQ) (it : AccordionItem) :
    accordionStep acc it = acc ++ (accordionOpt it).toList := by
  unfold accordionStep accordionOpt
  cases it.question <;> cases it.answer <;> simp
  split <;> simp

theorem headingStep_eq (acc : List FAQ) (hp : HeadingPair) :
    headingStep acc hp = acc ++ (headingOpt hp).toList := by
  unfold headingStep headingOpt
  cases hp.answer <;> simp
  split <;> simp

theorem foldl_optStep {β : Type} (f : β → Option FAQ) (g : List FAQ → β → List FAQ)
    (hg : ∀ acc x, g acc x = acc ++ (f x).toList) :
    ∀ (l : List β) (acc : List FAQ), l.foldl g acc = acc ++ l.filterMap f := by
  intro l
  induction l with
  | nil => intro acc; simp
  | cons x rest ih =>
    intro acc
    rw [List.foldl_cons, ih, hg, List.filterMap_cons]
    cases hf : f x <;> simp [List.append_assoc]

/-- C7 core equation: on any single page, the result is strategy (a)'s
pairs when there are any, else strategy (b)'s pairs. -/
theorem faqsAfterPage_eq (page : Page) :
    faqsAfterPage page [] =
      if (accordionPairs page).isEmpty then headingFaqs page
      else accordionPairs page := by
  unfold faqsAfterPage
  rw [foldl_optStep accordionOpt accordionStep accordionStep_eq,
    List.nil_append]
  by_cases h : (accordionPairs page).isEmpty
  · rw [if_pos, if_pos h]
    · rw [foldl_optStep headingOpt headingStep headingStep_eq]
      have : page.accordionItems.filterMap accordionOpt = [] :=
        List.isEmpty_iff.1 h
      rw [this, List.nil_append]
      rfl
    · exact h
  · rw [if_neg, if_neg h]
    · rfl
    · exact h

/-- A left fold whose step overwrites an observed field when the element
matches ends at the value derived from the last matching element. -/
theorem foldl_last_update {S α β : Type} (f : S → α → S) (get : S → Option β)
    (p : α → Bool) (d : α → β)
    (hf : ∀ s a, get (f s a) = if p a then some (d a) else get s) :
    ∀ (l : List α) (s0 : S),
      get (l.foldl f s0) =
        match (l.filter p).getLast? with
        | some a => some (d a)
        | none => get s0 := by
  intro l
  induction l with
  | nil => intro s0; rfl
  | cons a rest ih =>
    intro s0
    rw [List.foldl_cons, ih, hf]
    by_cases hp : p a
    · rw [List.filter_cons_of_pos hp, if_pos hp]
      cases hl : rest.filter p with
      | nil => rfl
      | cons c t =>
        rw [List.getLast?_cons_cons]
        obtain ⟨x, hx⟩ := Option.isSome_iff_exists.1
          (List.getLast?_isSome.2 (List.cons_ne_nil c t))
        rw [hx]
    · rw [List.filter_cons_of_neg hp, if_neg hp]

theorem getLast_map_eq {α β : Type} (o : Option α) (d : α → β) :
    (match o with
     | some a => some (d a)
     | none => (none : Option β)) = o.map d := by
  cases o <;> rfl

theorem socials_instagram_last (anchors : List Anchor) :
    (socialsFromAnchors anchors).instagram =
      ((anchors.filter (fun a => matchInstagram (myToLower a.href))).getLast?).map
        (fun a => deriveInstagram (myToLower a.href)) := by
  rw [socialsFromAnchors,
    foldl_last_update (fun (soc : Socials) (a : Anchor) => applyAnchorSocials soc (myToLower a.href))
      (fun (s : Socials) => s.instagram) (fun (a : Anchor) => matchInstagram (myToLower a.href))
      (fun a => deriveInstagram (myToLower a.href)) (fun s a => rfl) anchors {},
    getLast_map_eq]

theorem socials_facebook_last (anchors : List Anchor) :
    (socialsFromAnchors anchors).facebook =
      ((anchors.filter (fun a => matchFacebook (myToLower a.href))).getLast?).map
        (fun a => deriveFacebook (myToLower a.href)) := by
  rw [socialsFromAnchors,
    foldl_last_update (fun (soc : Socials) (a : Anchor) => applyAnchorSocials soc (myToLower a.href))
      (fun (s : Socials) => s.facebook) (fun (a : Anchor) => matchFacebook (myToLower a.href))
      (fun a => deriveFacebook (myToLower a.href)) (fun s a => rfl) anchors {},
    getLast_map_eq]

theorem socials_tiktok_last (anchors : List Anchor) :
    (socialsFromAnchors anchors).tiktok =
      ((anchors.filter (fun a => matchTiktok (myToLower a.href))).getLast?).map
        (fun a => deriveTiktok (myToLower a.href)) := by
  rw [socialsFromAnchors,
    foldl_last_update (fun (soc : Socials) (a : Anchor) => applyAnchorSocials soc (myToLower a.href))
      (fun (s : Socials) => s.tiktok) (fun (a : Anchor) => matchTiktok (myToLower a.href))
      (fun a => deriveTiktok (myToLower a.href)) (fun s a => rfl) anchors {},
    getLast_map_eq]

theorem socials_twitter_last (anchors : List Anchor) :
    (socialsFromAnchors anchors).twitter =
      ((anchors.filter (fun a => matchTwitter (myToLower a.href))).getLast?).map
        (fun a => deriveTwitter (myToLower a.href)) := by
  rw [socialsFromAnchors,
    foldl_last_update (fun (soc : Socials) (a : Anchor) => applyAnchorSocials soc (myToLower a.href))
      (fun (s : Socials) => s.twitter) (fun (a : Anchor) => matchTwitter (myToLower a.href))
      (fun a => deriveTwitter (myToLower a.href)) (fun s a => rfl) anchors {},
    getLast_map_eq]

theorem socials_youtube_last (anchors : List Anchor) :
    (socialsFromAnchors anchors).youtube =
      ((anchors.filter (fun a => matchYoutube (myToLower a.href))).getLast?).map
        (fun a => deriveYoutube (myToLower a.href)) := by
  rw [socialsFromAnchors,
    foldl_last_update (fun (soc : Socials) (a : Anchor) => applyAnchorSocials soc (myToLower a.href))
      (fun (s : Socials) => s.youtube) (fun (a : Anchor) => matchYoutube (myToLower a.href))
      (fun a => deriveYoutube (myToLower a.href)) (fun s a => rfl) anchors {},
    getLast_map_eq]

theorem socials_linkedin_last (anchors : List Anchor) :
    (socialsFromAnchors anchors).linkedin =
      ((anchors.filter (fun a => matchLinkedin (myToLower a.href))).getLast?).map
        (fun a => deriveLinkedin (myToLower a.href)) := by
  rw [socialsFromAnchors,
    foldl_last_update (fun (soc : Socials) (a : Anchor) => applyAnchorSocials soc (myToLower a.href))
      (fun (s : Socials) => s.linkedin) (fun (a : Anchor) => matchLinkedin (myToLower a.href))
      (fun a => deriveLinkedin (myToLower a.href)) (fun s a => rfl) anchors {},
    getLast_map_eq]

theorem socials_pinterest_last (anchors : List Anchor) :
    (socialsFromAnchors anchors).pinterest =
      ((anchors.filter (fun a => matchPinterest (myToLower a.href))).getLast?).map
        (fun a => derivePinterest (myToLower a.href)) := by
  rw [socialsFromAnchors,
    foldl_last_update (fun (soc : Socials) (a : Anchor) => applyAnchorSocials soc (myToLower a.href))
      (fun (s : Socials) => s.pinterest) (fun (a : Anchor) => matchPinterest (myToLower a.href))
      (fun a => derivePinterest (myToLower a.href)) (fun s a => rfl) anchors {},
    getLast_map_eq]

theorem links_order_tracking_last (b : BaseUrl) (anchors : List Anchor) :
    (linksFromAnchors b anchors).order_tracking =
      ((anchors.filter matchOrderTracking).getLast?).map
        (fun a => urljoin b (myToLower a.href)) := by
  rw [linksFromAnchors,
    foldl_last_update (applyAnchorLinks b) (fun (s : Links) => s.order_tracking)
      matchOrderTracking (fun a => urljoin b (myToLower a.href))
      (fun s a => rfl) anchors {},
    getLast_map_eq]

theorem links_contact_us_last (b : BaseUrl) (anchors : List Anchor) :
    (linksFromAnchors b anchors).contact_us =
      ((anchors.filter matchContactUs).getLast?).map
        (fun a => urljoin b (myToLower a.href)) := by
  rw [linksFromAnchors,
    foldl_last_update (applyAnchorLinks b) (fun (s : Links) => s.contact_us)
      matchContactUs (fun a => urljoin b (myToLower a.href))
      (fun s a => rfl) anchors {},
    getLast_map_eq]

theorem links_blogs_last (b : BaseUrl) (anchors : List Anchor) :
    (linksFromAnchors b anchors).blogs =
      ((anchors.filter matchBlogs).getLast?).map
        (fun a => urljoin b (myToLower a.href)) := by
  rw [linksFromAnchors,
    foldl_last_update (applyAnchorLinks b) (fun (s : Links) => s.blogs)
      matchBlogs (fun a => urljoin b (myToLower a.href))
      (fun s a => rfl) anchors {},
    getLast_map_eq]

theorem links_shipping_last (b : BaseUrl) (anchors : List Anchor) :
    (linksFromAnchors b anchors).shipping =
      ((anchors.filter matchShipping).getLast?).map
        (fun a => urljoin b (myToLower a.href)) := by
  rw [linksFromAnchors,
    foldl_last_update (applyAnchorLinks b) (fun (s : Links) => s.shipping)
      matchShipping (fun a => urljoin b (myToLower a.href))
      (fun s a => rfl) anchors {},
    getLast_map_eq]

theorem links_careers_last (b : BaseUrl) (anchors : List Anchor) :
    (linksFromAnchors b anchors).careers =
      ((anchors.filter matchCareers).getLast?).map
        (fun a => urljoin b (myToLower a.href)) := by
  rw [linksFromAnchors,
    foldl_last_update (applyAnchorLinks b) (fun (s : Links) => s.careers)
      matchCareers (fun a => urljoin b (myToLower a.href))
      (fun s a => rfl) anchors {},
    getLast_map_eq]

/-! ## Claim theorems -/

/-- C2: for every homepage/catalog combination, every product in the list
returned by the hero-product extractor has the handle of some product of
the extracted catalog list (it is in fact a member of that list), and the
result holds at most 10 products. -/
theorem hero_products_subset_and_capped (page : Page) (allProducts : List Product) :
    (∀ x ∈ heroFromSoup page allProducts, ∃ q ∈ allProducts, q.handle = x.handle) ∧
      (heroFromSoup page allProducts).length ≤ 10 := by
  constructor
  · intro x hx
    have h1 : x ∈ heroLoop allProducts
        (page.anchors.filter (fun a => substrOf "/products/" a.href)) [] [] :=
      List.take_subset 10 _ hx
    have h2 : x ∈ allProducts :=
      heroLoop_mem allProducts _ [] [] (by intro y hy; cases hy) x h1
    exact ⟨x, h2, rfl⟩
  · rw [heroFromSoup]
    calc (List.take 10 _).length ≤ 10 := by
          rw [List.length_take]
          exact min_le_left 10 _

/-- Witness for C2 at a concrete homepage/catalog pair. -/
theorem hero_products_subset_and_capped_witness :
    (∀ x ∈ heroFromSoup c2page c2products, ∃ q ∈ c2products, q.handle = x.handle) ∧
      (heroFromSoup c2page c2products).length ≤ 10 :=
  hero_products_subset_and_capped c2page c2products

/-- C7: the flat heading-then-next-block heuristic (strategy b) decides the
page's pairs exactly when the accordion strategy (strategy a) produced zero
pairs; when strategy (a) produced at least one pair the result is strategy
(a)'s pairs alone — never a merge of the two. -/
theorem faq_flat_heuristic_only_when_accordion_empty (page : Page) :
    (accordionPairs page ≠ [] → faqsAfterPage page [] = accordionPairs page) ∧
      (accordionPairs page = [] → faqsAfterPage page [] = headingFaqs page) := by
  constructor
  · intro h
    rw [faqsAfterPage_eq, if_neg]
    intro hEmpty
    exact h (List.isEmpty_iff.1 hEmpty)
  · intro h
    rw [faqsAfterPage_eq, if_pos]
    exact List.isEmpty_iff.2 h

/-- Witness for C7: with both kinds of matches present only the accordion
pairs are returned; with zero accordion pairs the flat pairs are. -/
theorem faq_flat_heuristic_only_when_accordion_empty_witness :
    (faqsAfterPage c7pageBoth [] = accordionPairs c7pageBoth) ∧
      (faqsAfterPage c7pageFlat [] = headingFaqs c7pageFlat) :=
  ⟨(faq_flat_heuristic_only_when_accordion_empty c7pageBoth).1 (by decide),
   (faq_flat_heuristic_only_when_accordion_empty c7pageFlat).2 (by decide)⟩

/-- C6: in the socials and links extractors the final stored value of every
platform field and link category equals the value derived from the last
matching anchor in document order (or stays absent when none matches). -/
theorem socials_links_last_match_wins (anchors : List Anchor) (b : BaseUrl) :
    ((socialsFromAnchors anchors).instagram =
        ((anchors.filter (fun a => matchInstagram (myToLower a.href))).getLast?).map
          (fun a => deriveInstagram (myToLower a.href))) ∧
    ((socialsFromAnchors anchors).facebook =
        ((anchors.filter (fun a => matchFacebook (myToLower a.href))).getLast?).map
          (fun a => deriveFacebook (myToLower a.href))) ∧
    ((socialsFromAnchors anchors).tiktok =
        ((anchors.filter (fun a => matchTiktok (myToLower a.href))).getLast?).map
          (fun a => deriveTiktok (myToLower a.href))) ∧
    ((socialsFromAnchors anchors).twitter =
        ((anchors.filter (fun a => matchTwitter (myToLower a.href))).getLast?).map
          (fun a => deriveTwitter (myToLower a.href))) ∧
    ((socialsFromAnchors anchors).youtube =
        ((anchors.filter (fun a => matchYoutube (myToLower a.href))).getLast?).map
          (fun a => deriveYoutube (myToLower a.href))) ∧
    ((socialsFromAnchors anchors).linkedin =
        ((anchors.filter (fun a => matchLinkedin (myToLower a.href))).getLast?).map
          (fun a => deriveLinkedin (myToLower a.href))) ∧
    ((socialsFromAnchors anchors).pinterest =
        ((anchors.filter (fun a => matchPinterest (myToLower a.href))).getLast?).map
          (fun a => derivePinterest (myToLower a.href))) ∧
    ((linksFromAnchors b anchors).order_tracking =
        ((anchors.filter matchOrderTracking).getLast?).map
          (fun a => urljoin b (myToLower a.href))) ∧
    ((linksFromAnchors b anchors).contact_us =
        ((anchors.filter matchContactUs).getLast?).map
          (fun a => urljoin b (myToLower a.href))) ∧
    ((linksFromAnchors b anchors).blogs =
        ((anchors.filter matchBlogs).getLast?).map
          (fun a => urljoin b (myToLower a.href))) ∧
    ((linksFromAnchors b anchors).shipping =
        ((anchors.filter matchShipping).getLast?).map
          (fun a => urljoin b (myToLower a.href))) ∧
    ((linksFromAnchors b anchors).careers =
        ((anchors.filter matchCareers).getLast?).map
          (fun a => urljoin b (myToLower a.href))) :=
  ⟨socials_instagram_last anchors, socials_facebook_last anchors,
   socials_tiktok_last anchors, socials_twitter_last anchors,
   socials_youtube_last anchors, socials_linkedin_last anchors,
   socials_pinterest_last anchors, links_order_tracking_last b anchors,
   links_contact_us_last b anchors, links_blogs_last b anchors,
   links_shipping_last b anchors, links_careers_last b anchors⟩

/-- C3: when the first product-feed endpoint answers 200 with a parseable
document containing an (empty) products collection, the run keeps the
empty result and the second endpoint is never fetched: exactly one request
is added to the trace. -/
theorem products_stop_at_first_valid_endpoint (w : World) (b : BaseUrl)
    (st : ScraperState) (pg : Page)
    (h200 : w (b.join "/products.json?limit=250") = .ok pg 200)
    (hjson : pg.json = .withProducts []) :
    fetchProducts w b st =
      ([], { st with sessionOpen := true,
                     fetched := st.fetched ++ [b.join "/products.json?limit=250"] }) := by
  rw [fetchProducts]
  show fetchProductsLoop w b
      ["/products.json?limit=250", "/collections/all/products.json?limit=250"] [] st = _
  rw [fetchProductsLoop]
  simp only [fetchUrl, h200]
  rw [if_pos trivial, hjson]
  rfl

/-- Witness for C3: endpoint A returns an empty collection while endpoint B
would return three products; the result is empty after a single request. -/
theorem products_stop_at_first_valid_endpoint_witness :
    fetchProducts c3world c3base initState =
      ([], { initState with sessionOpen := true,
                            fetched := initState.fetched ++
                              [c3base.join "/products.json?limit=250"] }) :=
  products_stop_at_first_valid_endpoint c3world c3base initState
    { json := .withProducts [] } (by decide) rfl

/-- C10: product extraction is not atomic per endpoint.  The first endpoint
converts one record and then raises on the second; the partial product is
retained, both endpoints are fetched, and the result mixes a record from
the first feed with a record from the second. -/
theorem products_mix_endpoints_on_partial_failure :
    toProduct c10base c10goodA = some c10prodA ∧
    toProduct c10base c10bad = none ∧
    toProduct c10base c10goodC = some c10prodC ∧
    fetchProducts c10world c10base initState =
      ([c10prodA, c10prodC],
       { initState with sessionOpen := true,
                        fetched := ["https://shop.example/products.json?limit=250",
                                    "https://shop.example/collections/all/products.json?limit=250"] }) := by
  refine ⟨by decide, by decide, by decide, by decide⟩

/-- C4: a homepage that answers 200 without any platform signature makes
the run raise `InvalidShopifyStoreError` after exactly that one request —
the final trace is the single homepage fetch, and no document is
produced (the session is still closed once). -/
theorem not_shopify_fails_before_any_further_fetch (w : World) (b : BaseUrl)
    (hp : Page) (h200 : w b.toUrl = .ok hp 200)
    (hsig : isShopifyPage hp = false) :
    getBrandContext w b =
      (.error .invalidStore,
       { fetched := [b.toUrl], soup := some hp,
         sessionOpen := false, closeCount := 1 }) := by
  rw [getBrandContext, checkIsShopify]
  simp only [fetchUrl, h200, initState]
  rw [if_neg (by simp), hsig]
  rfl

/-- Witness for C4 at a concrete non-Shopify homepage. -/
theorem not_shopify_fails_before_any_further_fetch_witness :
    getBrandContext c4world c4base =
      (.error .invalidStore,
       { fetched := [c4base.toUrl], soup := some c4page,
         sessionOpen := false, closeCount := 1 }) :=
  not_shopify_fails_before_any_further_fetch c4world c4base c4page
    (by decide) (by decide)

/-- C9 (amended): a phone-number candidate found in visible page text is
accepted into the phones set only if the string obtained by removing
whitespace, parentheses and hyphens — a leading `+` is kept — has length at
least 10. -/
theorem phones_accepted_only_if_cleaned_long (text p : String)
    (hp : p ∈ textAcceptedPhones text) :
    ∃ cand ∈ phoneScan text, p = myTrim cand ∧ 10 ≤ (cleanPhone cand).length := by
  rw [textAcceptedPhones] at hp
  rcases List.mem_filterMap.1 hp with ⟨cand, hc, hacc⟩
  refine ⟨cand, hc, ?_⟩
  by_cases h10 : 10 ≤ (cleanPhone cand).length
  · rw [if_pos h10] at hacc
    exact ⟨(Option.some_inj.1 hacc).symm, h10⟩
  · rw [if_neg h10] at hacc
    exact absurd hacc (Option.noConfusion)

/-- Witness for C9 at a concrete text. -/
theorem phones_accepted_only_if_cleaned_long_witness :
    ∃ cand ∈ phoneScan "call +1 (222) 333-4455 now",
      "+1 (222) 333-4455" = myTrim cand ∧ 10 ≤ (cleanPhone cand).length :=
  phones_accepted_only_if_cleaned_long "call +1 (222) 333-4455 now"
    "+1 (222) 333-4455" (by decide)

/-- C9 counterexample: the candidate `+123 456 789` — nine digits and a
leading `+` — is accepted into the phones set, although the string left
after removing whitespace and punctuation is a digit string of length 9,
not at least 10: the code's cleaning keeps the `+` and counts it. -/
theorem phone_with_nine_digits_accepted :
    "+123 456 789" ∈ textAcceptedPhones "+123 456 789" ∧
      claimCleanedPhone "+123 456 789" = "123456789" ∧
      ¬ 10 ≤ (claimCleanedPhone "+123 456 789").length := by
  decide

/-- The candidate-path loop fetches the image of a prefix of its path list,
and that prefix ends no later than just after any path whose fetch answers
200 with locatable main content. -/
theorem fetchPolicyText_trace (w : World) (b : BaseUrl) :
    ∀ (paths : List String) (st : ScraperState),
      ∃ k, k ≤ paths.length ∧
        (fetchPolicyText w b paths st).2.fetched =
          st.fetched ++ (paths.take k).map (fun q => b.join q) ∧
        ∀ i, (hi : i < paths.length) → ∀ pg,
          w (b.join paths[i]) = .ok pg 200 → (mainContentText pg).isSome →
            k ≤ i + 1 := by
  intro paths
  induction paths with
  | nil =>
    intro st
    refine ⟨0, Nat.le_refl 0, ?_, ?_⟩
    · simp [fetchPolicyText]
    · intro i hi
      exact absurd hi (by simp)
  | cons p rest ih =>
    intro st
    simp only [fetchPolicyText, fetchUrl]
    cases hw : w (b.join p) with
    | err =>
      obtain ⟨k, hk, htr, hfirst⟩ :=
        ih { st with sessionOpen := true, fetched := st.fetched ++ [b.join p] }
      refine ⟨k + 1, Nat.succ_le_succ hk, ?_, ?_⟩
      · dsimp only
        rw [htr]
        simp [List.take_succ_cons]
      · intro i hi pg hpg hsome
        cases i with
        | zero => rw [List.getElem_cons_zero, hw] at hpg; cases hpg
        | succ j =>
          have hj := hfirst j (by simpa using Nat.lt_of_succ_lt_succ hi) pg
            (by rw [List.getElem_cons_succ] at hpg; exact hpg) hsome
          exact Nat.succ_le_succ hj
    | ok pg s =>
      dsimp only
      by_cases hs : s = 200
      · subst hs
        rw [if_pos rfl]
        cases hmc : mainContentText pg with
        | some t =>
          refine ⟨1, by simp, ?_, ?_⟩
          · dsimp only
            simp [List.take_succ_cons]
          · intro i hi pg' hpg' hsome
            exact Nat.le_add_left 1 i
        | none =>
          obtain ⟨k, hk, htr, hfirst⟩ :=
            ih { st with sessionOpen := true, fetched := st.fetched ++ [b.join p] }
          refine ⟨k + 1, Nat.succ_le_succ hk, ?_, ?_⟩
          · dsimp only
            rw [htr]
            simp [List.take_succ_cons]
          · intro i hi pg' hpg' hsome
            cases i with
            | zero =>
              rw [List.getElem_cons_zero, hw] at hpg'
              cases hpg'
              rw [hmc] at hsome
              cases hsome
            | succ j =>
              have hj := hfirst j (by simpa using Nat.lt_of_succ_lt_succ hi) pg'
                (by rw [List.getElem_cons_succ] at hpg'; exact hpg') hsome
              exact Nat.succ_le_succ hj
      · rw [if_neg hs]
        obtain ⟨k, hk, htr, hfirst⟩ :=
          ih { st with sessionOpen := true, fetched := st.fetched ++ [b.join p] }
        refine ⟨k + 1, Nat.succ_le_succ hk, ?_, ?_⟩
        · dsimp only
          rw [htr]
          simp [List.take_succ_cons]
        · intro i hi pg' hpg' hsome
          cases i with
          | zero =>
            rw [List.getElem_cons_zero, hw] at hpg'
            cases hpg'
            exact absurd rfl hs
          | succ j =>
            have hj := hfirst j (by simpa using Nat.lt_of_succ_lt_succ hi) pg'
              (by rw [List.getElem_cons_succ] at hpg'; exact hpg') hsome
            exact Nat.succ_le_succ hj

/-- C8 (amended): for a text-block field (a policy type, or about), once a
candidate path answers 200 *and* its page yields a locatable main-content
element, no later candidate path of that field is fetched. -/
theorem policy_paths_stop_at_first_contentful_200 (w : World) (b : BaseUrl)
    (paths : List String) (i : Nat) (pg : Page) (t : String)
    (hi : i < paths.length)
    (h200 : w (b.join paths[i]) = .ok pg 200)
    (hcontent : mainContentText pg = some t)
    (hnd : (paths.map (fun q => b.join q)).Nodup)
    (j : Nat) (hij : i < j) (hj : j < paths.length) :
    b.join paths[j] ∉ (fetchPolicyText w b paths initState).2.fetched := by
  obtain ⟨k, hk, htr, hfirst⟩ := fetchPolicyText_trace w b paths initState
  rw [htr]
  intro hmem
  have hk1 : k ≤ i + 1 := hfirst i hi pg h200 (by rw [hcontent]; rfl)
  rw [initState] at hmem
  rw [List.nil_append] at hmem
  rcases List.mem_iff_getElem.1 hmem with ⟨m, hm, hmeq⟩
  have hmk : m < k := by
    have := hm
    rw [List.length_map, List.length_take] at this
    omega
  have hmlen : m < paths.length := by
    have := hm
    rw [List.length_map, List.length_take] at this
    omega
  rw [List.getElem_map, List.getElem_take] at hmeq
  have hmlen2 : m < (paths.map (fun q => b.join q)).length := by
    rw [List.length_map]
    omega
  have hjlen2 : j < (paths.map (fun q => b.join q)).length := by
    rw [List.length_map]
    omega
  have hmapeq : (paths.map (fun q => b.join q))[m] =
      (paths.map (fun q => b.join q))[j] := by
    rw [List.getElem_map, List.getElem_map]
    exact hmeq
  have := (List.Nodup.getElem_inj_iff hnd).1 hmapeq
  omega

/-- Witness for C8: the first privacy path answers 200 with content, so
the second privacy path is never fetched. -/
theorem policy_paths_stop_at_first_contentful_200_witness :
    c8wbase.join privacyPaths[1] ∉
      (fetchPolicyText c8wworld c8wbase privacyPaths initState).2.fetched :=
  policy_paths_stop_at_first_contentful_200 c8wworld c8wbase privacyPaths 0
    c8wpage "Privacy text" (by decide) (by decide) (by decide) (by decide)
    1 (by decide) (by decide)

/-- C8 counterexample: the first privacy candidate path answers 200, but
its page has no `<main>` landmark and no content-like `div`, so the `break`
inside `if main_content:` is never reached and the *second* privacy
candidate path is fetched anyway — the claim's "stops at the first path
whose fetch returns status 200 regardless of content" is false. -/
theorem policy_200_without_content_does_not_stop :
    c8world (c8base.join "/policies/privacy-policy") = .ok {} 200 ∧
      c8base.join "/pages/privacy-policy" ∈
        (fetchPolicies c8world c8base initState).2.fetched := by
  decide

theorem loopInv_refl (st : ScraperState) : loopInv st st :=
  ⟨rfl, rfl, fun h => h⟩

theorem loopInv_trans {s1 s2 s3 : ScraperState} (h1 : loopInv s1 s2)
    (h2 : loopInv s2 s3) : loopInv s1 s3 :=
  ⟨h2.1.trans h1.1, h2.2.1.trans h1.2.1, fun h => h2.2.2 (h1.2.2 h)⟩

theorem loopInv_fetchUrl (w : World) (u : String) (st : ScraperState) :
    loopInv st (fetchUrl w u st).2 :=
  ⟨rfl, rfl, fun _ => rfl⟩

theorem fetchProductsLoop_inv (w : World) (b : BaseUrl) :
    ∀ (eps : List String) (acc : List Product) (st : ScraperState),
      loopInv st (fetchProductsLoop w b eps acc st).2 := by
  intro eps
  induction eps with
  | nil => intro acc st; exact loopInv_refl st
  | cons ep rest ih =>
    intro acc st
    simp only [fetchProductsLoop, fetchUrl]
    have hstep : loopInv st
        { st with sessionOpen := true, fetched := st.fetched ++ [b.join ep] } :=
      ⟨rfl, rfl, fun _ => rfl⟩
    cases hw : w (b.join ep) with
    | err => exact loopInv_trans hstep (ih acc _)
    | ok pg s =>
      dsimp only
      by_cases hs : s = 200
      · subst hs
        rw [if_pos rfl]
        cases pg.json with
        | invalid => exact loopInv_trans hstep (ih acc _)
        | noProducts => exact loopInv_trans hstep (ih acc _)
        | withProducts ps =>
          dsimp only
          rcases hca : convertAll b ps with ⟨newPs, ok'⟩
          cases ok' with
          | true => exact hstep
          | false => exact loopInv_trans hstep (ih (acc ++ newPs) _)
      · rw [if_neg hs]
        exact loopInv_trans hstep (ih acc _)

theorem fetchPolicyText_inv (w : World) (b : BaseUrl) :
    ∀ (paths : List String) (st : ScraperState),
      loopInv st (fetchPolicyText w b paths st).2 := by
  intro paths
  induction paths with
  | nil => intro st; exact loopInv_refl st
  | cons p rest ih =>
    intro st
    simp only [fetchPolicyText, fetchUrl]
    have hstep : loopInv st
        { st with sessionOpen := true, fetched := st.fetched ++ [b.join p] } :=
      ⟨rfl, rfl, fun _ => rfl⟩
    cases hw : w (b.join p) with
    | err => exact loopInv_trans hstep (ih _)
    | ok pg s =>
      dsimp only
      by_cases hs : s = 200
      · subst hs
        rw [if_pos rfl]
        cases mainContentText pg with
        | some t => exact hstep
        | none => exact loopInv_trans hstep (ih _)
      · rw [if_neg hs]
        exact loopInv_trans hstep (ih _)

theorem fetchFaqsLoop_inv (w : World) (b : BaseUrl) :
    ∀ (paths : List String) (faqs : List FAQ) (st : ScraperState),
      loopInv st (fetchFaqsLoop w b paths faqs st).2 := by
  intro paths
  induction paths with
  | nil => intro faqs st; exact loopInv_refl st
  | cons p rest ih =>
    intro faqs st
    simp only [fetchFaqsLoop, fetchUrl]
    have hstep : loopInv st
        { st with sessionOpen := true, fetched := st.fetched ++ [b.join p] } :=
      ⟨rfl, rfl, fun _ => rfl⟩
    cases hw : w (b.join p) with
    | err => exact loopInv_trans hstep (ih faqs _)
    | ok pg s =>
      dsimp only
      by_cases hs : s = 200
      · subst hs
        rw [if_pos rfl]
        cases (faqsAfterPage pg faqs).isEmpty with
        | true => exact loopInv_trans hstep (ih _ _)
        | false => exact hstep
      · rw [if_neg hs]
        exact loopInv_trans hstep (ih faqs _)

theorem fetchContactLoop_inv (w : World) (b : BaseUrl) :
    ∀ (paths : List String) (st : ScraperState),
      loopInv st (fetchContactLoop w b paths st).2 := by
  intro paths
  induction paths with
  | nil => intro st; exact loopInv_refl st
  | cons p rest ih =>
    intro st
    simp only [fetchContactLoop, fetchUrl]
    have hstep : loopInv st
        { st with sessionOpen := true, fetched := st.fetched ++ [b.join p] } :=
      ⟨rfl, rfl, fun _ => rfl⟩
    cases hw : w (b.join p) with
    | err => exact loopInv_trans hstep (ih _)
    | ok pg s =>
      dsimp only
      by_cases hs : s = 200
      · subst hs
        rw [if_pos rfl]
        exact hstep
      · rw [if_neg hs]
        exact loopInv_trans hstep (ih _)

theorem fetchProducts_inv (w : World) (b : BaseUrl) (st : ScraperState) :
    loopInv st (fetchProducts w b st).2 :=
  fetchProductsLoop_inv w b productEndpoints [] st

theorem fetchPolicies_inv (w : World) (b : BaseUrl) (st : ScraperState) :
    loopInv st (fetchPolicies w b st).2 := by
  rw [fetchPolicies]
  rcases h1 : fetchPolicyText w b privacyPaths st with ⟨v1, st1⟩
  rcases h2 : fetchPolicyText w b returnPolicyPaths st1 with ⟨v2, st2⟩
  rcases h3 : fetchPolicyText w b refundPaths st2 with ⟨v3, st3⟩
  rcases h4 : fetchPolicyText w b termsPaths st3 with ⟨v4, st4⟩
  have i1 := fetchPolicyText_inv w b privacyPaths st
  have i2 := fetchPolicyText_inv w b returnPolicyPaths st1
  have i3 := fetchPolicyText_inv w b refundPaths st2
  have i4 := fetchPolicyText_inv w b termsPaths st3
  rw [h1] at i1
  rw [h2] at i2
  rw [h3] at i3
  rw [h4] at i4
  simp only [h1, h2, h3, h4]
  exact loopInv_trans i1 (loopInv_trans i2 (loopInv_trans i3 i4))

theorem fetchFaqs_inv (w : World) (b : BaseUrl) (st : ScraperState) :
    loopInv st (fetchFaqs w b st).2 :=
  fetchFaqsLoop_inv w b faqPaths [] st

theorem fetchAbout_inv (w : World) (b : BaseUrl) (st : ScraperState) :
    loopInv st (fetchAbout w b st).2 :=
  fetchPolicyText_inv w b aboutPaths st

/-- `ensureSoup` may set the cached soup but keeps the close count, and an
open session stays open. -/
theorem ensureSoup_session (w : World) (b : BaseUrl) (st : ScraperState) :
    (ensureSoup w b st).2.closeCount = st.closeCount ∧
      (st.sessionOpen = true → (ensureSoup w b st).2.sessionOpen = true) := by
  rw [ensureSoup]
  cases st.soup with
  | some pg => exact ⟨rfl, fun h => h⟩
  | none =>
    simp only [fetchUrl]
    cases w b.toUrl with
    | err => exact ⟨rfl, fun _ => rfl⟩
    | ok pg s => exact ⟨rfl, fun _ => rfl⟩

theorem fetchHeroProducts_session (w : World) (b : BaseUrl)
    (ps : List Product) (st : ScraperState) :
    (fetchHeroProducts w b ps st).2.closeCount = st.closeCount ∧
      (st.sessionOpen = true → (fetchHeroProducts w b ps st).2.sessionOpen = true) := by
  rw [fetchHeroProducts]
  rcases h : ensureSoup w b st with ⟨r, st'⟩
  have hs := ensureSoup_session w b st
  rw [h] at hs
  cases r with
  | error e => exact hs
  | ok pg => exact hs

theorem fetchSocialHandles_session (w : World) (b : BaseUrl) (st : ScraperState) :
    (fetchSocialHandles w b st).2.closeCount = st.closeCount ∧
      (st.sessionOpen = true → (fetchSocialHandles w b st).2.sessionOpen = true) := by
  rw [fetchSocialHandles]
  rcases h : ensureSoup w b st with ⟨r, st'⟩
  have hs := ensureSoup_session w b st
  rw [h] at hs
  cases r with
  | error e => exact hs
  | ok pg => exact hs

theorem fetchImportantLinks_session (w : World) (b : BaseUrl) (st : ScraperState) :
    (fetchImportantLinks w b st).2.closeCount = st.closeCount ∧
      (st.sessionOpen = true → (fetchImportantLinks w b st).2.sessionOpen = true) := by
  rw [fetchImportantLinks]
  rcases h : ensureSoup w b st with ⟨r, st'⟩
  have hs := ensureSoup_session w b st
  rw [h] at hs
  cases r with
  | error e => exact hs
  | ok pg => exact hs

theorem fetchContactInfo_session (w : World) (b : BaseUrl) (st : ScraperState) :
    (fetchContactInfo w b st).2.closeCount = st.closeCount ∧
      (st.sessionOpen = true → (fetchContactInfo w b st).2.sessionOpen = true) := by
  rw [fetchContactInfo]
  rcases h : ensureSoup w b st with ⟨r, st'⟩
  have hs := ensureSoup_session w b st
  rw [h] at hs
  cases r with
  | error e => exact hs
  | ok pg =>
    dsimp only
    rcases h2 : fetchContactLoop w b contactPaths st' with ⟨found, st''⟩
    have i2 := fetchContactLoop_inv w b contactPaths st'
    rw [h2] at i2
    exact ⟨i2.2.1.trans hs.1, fun h => i2.2.2 (hs.2 h)⟩

theorem checkIsShopify_session (w : World) (b : BaseUrl) (st : ScraperState) :
    (checkIsShopify w b st).2.closeCount = st.closeCount ∧
      (checkIsShopify w b st).2.sessionOpen = true := by
  rw [checkIsShopify]
  simp only [fetchUrl]
  cases w b.toUrl with
  | err => exact ⟨rfl, rfl⟩
  | ok pg s =>
    dsimp only
    by_cases hs : s ≠ 200
    · rw [if_pos hs]
      exact ⟨rfl, rfl⟩
    · rw [if_neg hs]
      exact ⟨rfl, rfl⟩

theorem closeSession_of_open (st : ScraperState) (h : st.sessionOpen = true)
    (h0 : st.closeCount = 0) :
    (closeSession st).closeCount = 1 ∧ (closeSession st).sessionOpen = false := by
  rw [closeSession, if_pos h]
  exact ⟨by simp [h0], rfl⟩

/-- C5: on every run — document returned or failure raised at any stage —
the session resource is closed exactly once (and left closed) by the time
the result or failure is surfaced. -/
theorem session_released_exactly_once (w : World) (b : BaseUrl) :
    (getBrandContext w b).2.closeCount = 1 ∧
      (getBrandContext w b).2.sessionOpen = false := by
  rw [getBrandContext]
  rcases hchk : checkIsShopify w b initState with ⟨r, st1⟩
  have h1 := checkIsShopify_session w b initState
  rw [hchk] at h1
  have h1c : st1.closeCount = 0 := h1.1
  have h1o : st1.sessionOpen = true := h1.2
  cases r with
  | error e => exact closeSession_of_open st1 h1o h1c
  | ok isShopify =>
    dsimp only
    cases isShopify with
    | false =>
      rw [if_pos (show (!false) = true by decide)]
      exact closeSession_of_open st1 h1o h1c
    | true =>
      rw [if_neg (show ¬((!true) = true) by decide)]
      rcases h2 : fetchProducts w b st1 with ⟨products, st2⟩
      dsimp only
      have i2 := fetchProducts_inv w b st1
      rw [h2] at i2
      have h2c : st2.closeCount = 0 := i2.2.1.trans h1c
      have h2o : st2.sessionOpen = true := i2.2.2 h1o
      rcases h3 : fetchHeroProducts w b products st2 with ⟨r3, st3⟩
      have i3 := fetchHeroProducts_session w b products st2
      rw [h3] at i3
      have h3c : st3.closeCount = 0 := i3.1.trans h2c
      have h3o : st3.sessionOpen = true := i3.2 h2o
      cases r3 with
      | error e => exact closeSession_of_open st3 h3o h3c
      | ok hero =>
        dsimp only
        rcases h4 : fetchPolicies w b st3 with ⟨policies, st4⟩
        dsimp only
        have i4 := fetchPolicies_inv w b st3
        rw [h4] at i4
        have h4c : st4.closeCount = 0 := i4.2.1.trans h3c
        have h4o : st4.sessionOpen = true := i4.2.2 h3o
        rcases h5 : fetchFaqs w b st4 with ⟨faqs, st5⟩
        dsimp only
        have i5 := fetchFaqs_inv w b st4
        rw [h5] at i5
        have h5c : st5.closeCount = 0 := i5.2.1.trans h4c
        have h5o : st5.sessionOpen = true := i5.2.2 h4o
        rcases h6 : fetchSocialHandles w b st5 with ⟨r6, st6⟩
        have i6 := fetchSocialHandles_session w b st5
        rw [h6] at i6
        have h6c : st6.closeCount = 0 := i6.1.trans h5c
        have h6o : st6.sessionOpen = true := i6.2 h5o
        cases r6 with
        | error e => exact closeSession_of_open st6 h6o h6c
        | ok socials =>
          dsimp only
          rcases h7 : fetchContactInfo w b st6 with ⟨r7, st7⟩
          have i7 := fetchContactInfo_session w b st6
          rw [h7] at i7
          have h7c : st7.closeCount = 0 := i7.1.trans h6c
          have h7o : st7.sessionOpen = true := i7.2 h6o
          cases r7 with
          | error e => exact closeSession_of_open st7 h7o h7c
          | ok contact =>
            dsimp only
            rcases h8 : fetchAbout w b st7 with ⟨about, st8⟩
            dsimp only
            have i8 := fetchAbout_inv w b st7
            rw [h8] at i8
            have h8c : st8.closeCount = 0 := i8.2.1.trans h7c
            have h8o : st8.sessionOpen = true := i8.2.2 h7o
            rcases h9 : fetchImportantLinks w b st8 with ⟨r9, st9⟩
            have i9 := fetchImportantLinks_session w b st8
            rw [h9] at i9
            have h9c : st9.closeCount = 0 := i9.1.trans h8c
            have h9o : st9.sessionOpen = true := i9.2 h8o
            cases r9 with
            | error e => exact closeSession_of_open st9 h9o h9c
            | ok links => exact closeSession_of_open st9 h9o h9c

theorem fetchPolicyText_allFail (w : World) (b : BaseUrl)
    (hfail : ∀ rel, rel ≠ "" → failsAt w (b.join rel)) :
    ∀ (paths : List String), (∀ p ∈ paths, p ≠ "") →
      ∀ st, ∃ st', fetchPolicyText w b paths st = (none, st') ∧
        st'.soup = st.soup := by
  intro paths
  induction paths with
  | nil => intro _ st; exact ⟨st, rfl, rfl⟩
  | cons p rest ih =>
    intro hne st
    simp only [fetchPolicyText, fetchUrl]
    cases hw : w (b.join p) with
    | err =>
      obtain ⟨st', h1, h2⟩ := ih (fun q hq => hne q (List.mem_cons_of_mem p hq)) _
      exact ⟨st', h1, h2⟩
    | ok pg s =>
      dsimp only
      have hs : ¬(s = 200) := hfail p (hne p (List.mem_cons_self p rest)) pg s hw
      rw [if_neg hs]
      obtain ⟨st', h1, h2⟩ := ih (fun q hq => hne q (List.mem_cons_of_mem p hq)) _
      exact ⟨st', h1, h2⟩

theorem fetchFaqsLoop_allFail (w : World) (b : BaseUrl)
    (hfail : ∀ rel, rel ≠ "" → failsAt w (b.join rel)) :
    ∀ (paths : List String), (∀ p ∈ paths, p ≠ "") →
      ∀ (faqs : List FAQ) (st : ScraperState),
        ∃ st', fetchFaqsLoop w b paths faqs st = (faqs, st') ∧
          st'.soup = st.soup := by
  intro paths
  induction paths with
  | nil => intro _ faqs st; exact ⟨st, rfl, rfl⟩
  | cons p rest ih =>
    intro hne faqs st
    simp only [fetchFaqsLoop, fetchUrl]
    cases hw : w (b.join p) with
    | err =>
      obtain ⟨st', h1, h2⟩ := ih (fun q hq => hne q (List.mem_cons_of_mem p hq)) faqs _
      exact ⟨st', h1, h2⟩
    | ok pg s =>
      dsimp only
      have hs : ¬(s = 200) := hfail p (hne p (List.mem_cons_self p rest)) pg s hw
      rw [if_neg hs]
      obtain ⟨st', h1, h2⟩ := ih (fun q hq => hne q (List.mem_cons_of_mem p hq)) faqs _
      exact ⟨st', h1, h2⟩

theorem fetchProductsLoop_allFail (w : World) (b : BaseUrl)
    (hfail : ∀ rel, rel ≠ "" → failsAt w (b.join rel)) :
    ∀ (eps : List String), (∀ p ∈ eps, p ≠ "") →
      ∀ (acc : List Product) (st : ScraperState),
        ∃ st', fetchProductsLoop w b eps acc st = (acc, st') ∧
          st'.soup = st.soup := by
  intro eps
  induction eps with
  | nil => intro _ acc st; exact ⟨st, rfl, rfl⟩
  | cons ep rest ih =>
    intro hne acc st
    simp only [fetchProductsLoop, fetchUrl]
    cases hw : w (b.join ep) with
    | err =>
      obtain ⟨st', h1, h2⟩ := ih (fun q hq => hne q (List.mem_cons_of_mem ep hq)) acc _
      exact ⟨st', h1, h2⟩
    | ok pg s =>
      dsimp only
      have hs : ¬(s = 200) := hfail ep (hne ep (List.mem_cons_self ep rest)) pg s hw
      rw [if_neg hs]
      obtain ⟨st', h1, h2⟩ := ih (fun q hq => hne q (List.mem_cons_of_mem ep hq)) acc _
      exact ⟨st', h1, h2⟩

theorem fetchContactLoop_allFail (w : World) (b : BaseUrl)
    (hfail : ∀ rel, rel ≠ "" → failsAt w (b.join rel)) :
    ∀ (paths : List String), (∀ p ∈ paths, p ≠ "") →
      ∀ st, ∃ st', fetchContactLoop w b paths st = (none, st') ∧
        st'.soup = st.soup := by
  intro paths
  induction paths with
  | nil => intro _ st; exact ⟨st, rfl, rfl⟩
  | cons p rest ih =>
    intro hne st
    simp only [fetchContactLoop, fetchUrl]
    cases hw : w (b.join p) with
    | err =>
      obtain ⟨st', h1, h2⟩ := ih (fun q hq => hne q (List.mem_cons_of_mem p hq)) _
      exact ⟨st', h1, h2⟩
    | ok pg s =>
      dsimp only
      have hs : ¬(s = 200) := hfail p (hne p (List.mem_cons_self p rest)) pg s hw
      rw [if_neg hs]
      obtain ⟨st', h1, h2⟩ := ih (fun q hq => hne q (List.mem_cons_of_mem p hq)) _
      exact ⟨st', h1, h2⟩

theorem fetchPolicies_allFail (w : World) (b : BaseUrl)
    (hfail : ∀ rel, rel ≠ "" → failsAt w (b.join rel)) (st : ScraperState) :
    ∃ st', fetchPolicies w b st = ({}, st') ∧ st'.soup = st.soup := by
  obtain ⟨s1, e1, p1⟩ := fetchPolicyText_allFail w b hfail privacyPaths (by decide) st
  obtain ⟨s2, e2, p2⟩ := fetchPolicyText_allFail w b hfail returnPolicyPaths (by decide) s1
  obtain ⟨s3, e3, p3⟩ := fetchPolicyText_allFail w b hfail refundPaths (by decide) s2
  obtain ⟨s4, e4, p4⟩ := fetchPolicyText_allFail w b hfail termsPaths (by decide) s3
  refine ⟨s4, ?_, (p4.trans p3).trans ((p2.trans p1))⟩
  rw [fetchPolicies, e1]
  dsimp only
  rw [e2]
  dsimp only
  rw [e3]
  dsimp only
  rw [e4]

theorem heroFromSoup_nil (pg : Page) : heroFromSoup pg [] = [] := by
  rw [heroFromSoup, heroLoop_nil_products]
  rfl

/-- C1 (amended): when the homepage answers 200 with a matching signature
and every candidate path/endpoint fetch fails (non-200 or transport error),
the run succeeds; the candidate-path-backed fields are at their empty
defaults (`products = []`, `hero_products = []`, empty policies, no FAQs,
no about text) and the homepage-derived fields (socials, contact, links)
equal what the cached homepage body alone yields — so they too are at their
defaults exactly when the homepage contributes no matching anchors, e-mail
or phone tokens. -/
theorem run_succeeds_with_defaults_when_candidates_fail (w : World)
    (b : BaseUrl) (hp : Page) (hbase : w b.toUrl = .ok hp 200)
    (hsig : isShopifyPage hp = true)
    (hfail : ∀ rel, rel ≠ "" → failsAt w (b.join rel)) :
    ∃ st, getBrandContext w b =
      (.ok { brand := b.host, products := [], hero_products := [],
             policies := {}, faqs := [],
             socials := socialsFromAnchors hp.anchors,
             contact := contactFromSoup hp, about := none,
             links := linksFromAnchors b hp.anchors }, st) := by
  have hchk : checkIsShopify w b initState =
      (.ok true, { fetched := [b.toUrl], soup := some hp,
                   sessionOpen := true, closeCount := 0 }) := by
    rw [checkIsShopify]
    simp only [fetchUrl, hbase]
    rw [if_neg (by simp), hsig]
    rfl
  rw [getBrandContext, hchk]
  dsimp only
  rw [if_neg (show ¬((!true) = true) by decide)]
  obtain ⟨st2, hP, hPs⟩ := fetchProductsLoop_allFail w b hfail productEndpoints
    (by decide) []
    { fetched := [b.toUrl], soup := some hp, sessionOpen := true, closeCount := 0 }
  have hP' : fetchProducts w b
      { fetched := [b.toUrl], soup := some hp,
        sessionOpen := true, closeCount := 0 } = ([], st2) := hP
  rw [hP']
  dsimp only
  have hsoup2 : st2.soup = some hp := hPs
  have hens2 : ensureSoup w b st2 = (.ok hp, st2) := by
    rw [ensureSoup, hsoup2]
  have hhero : fetchHeroProducts w b [] st2 = (.ok [], st2) := by
    rw [fetchHeroProducts, hens2]
    dsimp only
    rw [heroFromSoup_nil]
  rw [hhero]
  dsimp only
  obtain ⟨st4, hPol, hPolS⟩ := fetchPolicies_allFail w b hfail st2
  rw [hPol]
  dsimp only
  obtain ⟨st5, hFq, hFqS⟩ := fetchFaqsLoop_allFail w b hfail faqPaths (by decide) [] st4
  have hFq' : fetchFaqs w b st4 = ([], st5) := hFq
  rw [hFq']
  dsimp only
  have hsoup5 : st5.soup = some hp := (hFqS.trans hPolS).trans hsoup2
  have hens5 : ensureSoup w b st5 = (.ok hp, st5) := by
    rw [ensureSoup, hsoup5]
  have hSoc : fetchSocialHandles w b st5 = (.ok (socialsFromAnchors hp.anchors), st5) := by
    rw [fetchSocialHandles, hens5]
  rw [hSoc]
  dsimp only
  obtain ⟨st7, hCl, hClS⟩ := fetchContactLoop_allFail w b hfail contactPaths (by decide) st5
  have hCon : fetchContactInfo w b st5 = (.ok (contactFromSoup hp), st7) := by
    rw [fetchContactInfo, hens5]
    dsimp only
    rw [hCl]
    rfl
  rw [hCon]
  dsimp only
  obtain ⟨st8, hAb, hAbS⟩ := fetchPolicyText_allFail w b hfail aboutPaths (by decide) st7
  have hAb' : fetchAbout w b st7 = (none, st8) := hAb
  rw [hAb']
  dsimp only
  have hsoup8 : st8.soup = some hp := (hAbS.trans hClS).trans hsoup5
  have hens8 : ensureSoup w b st8 = (.ok hp, st8) := by
    rw [ensureSoup, hsoup8]
  have hLnk : fetchImportantLinks w b st8 = (.ok (linksFromAnchors b hp.anchors), st8) := by
    rw [fetchImportantLinks, hens8]
  rw [hLnk]
  exact ⟨closeSession st8, rfl⟩

theorem append_ne_self (s t : String) (h : t ≠ "") : s ++ t ≠ s := by
  intro he
  have hl := congrArg String.length he
  rw [String.length_append] at hl
  have ht : t.length = 0 := by omega
  apply h
  cases t with
  | mk data =>
    cases data with
    | nil => rfl
    | cons c cs => simp [String.length] at ht

theorem c1world_fails : ∀ rel, rel ≠ "" → failsAt c1world (c1base.join rel) := by
  intro rel hrel pg s hw
  simp only [c1world] at hw
  rw [if_neg] at hw
  · cases hw
    decide
  · show ¬(c1base.join rel = "https://brand.example")
    have : c1base.join rel = "https://brand.example" ++ rel := rfl
    rw [this]
    exact append_ne_self "https://brand.example" rel hrel

/-- Witness for C1 at a concrete world whose homepage carries only the
platform signature while every other URL answers 404. -/
theorem run_succeeds_with_defaults_when_candidates_fail_witness :
    ∃ st, getBrandContext c1world c1base =
      (.ok { brand := c1base.host, products := [], hero_products := [],
             policies := {}, faqs := [],
             socials := socialsFromAnchors c1page.anchors,
             contact := contactFromSoup c1page, about := none,
             links := linksFromAnchors c1base c1page.anchors }, st) :=
  run_succeeds_with_defaults_when_candidates_fail c1world c1base c1page
    (by decide) (by decide) c1world_fails

/-- C1 counterexample: the homepage answers 200 with a matching signature
and every candidate path/endpoint answers 404, yet the returned document is
not all-defaults — its instagram field is populated from a homepage anchor,
because socials/contact/links are extracted from the cached homepage body
rather than from candidate paths. -/
theorem socials_populated_although_every_candidate_404s :
    c1xworld c1base.toUrl = .ok c1xpage 200 ∧
      isShopifyPage c1xpage = true ∧
      c1xworld (c1base.join "/products.json?limit=250") = .ok {} 404 ∧
      c1xworld (c1base.join "/faq") = .ok {} 404 ∧
      (getBrandContext c1xworld c1base).1 =
        .ok { brand := "brand.example", products := [], hero_products := [],
              policies := {}, faqs := [],
              socials := { instagram := some "@brand" },
              contact := {}, about := none, links := {} } ∧
      ({ instagram := some "@brand" } : Socials) ≠ ({} : Socials) := by
  refine ⟨by decide, by decide, by decide, by decide, by decide, by decide⟩
